import Mathlib

/-!
Verification development for the gateway core: receipt abstraction (TAP),
indexer query client, horizon tracker, POI resolver, topology snapshot
builder, and the reporting pipeline's attestation sampler.

Machine integers are modelled as `Nat` (all the operations involved here are
bounds-preserving or carry explicit clamps where the source clamps), byte
strings as `List Nat` (each element a byte value), and text as `List Char`.
-/

namespace Gateway

/-! ## Hex encoding and the Scalar-Receipt header (indexer_client.rs) -/

/-- A single lowercase hex digit, as produced by the `hex` crate. -/
def hexDigit (n : Nat) : Char :=
  if n < 10 then Char.ofNat (48 + n) else Char.ofNat (87 + n)

/-- `hex::encode`: two lowercase hex digits per byte, high nibble first. -/
def hexEncode (bytes : List Nat) : List Char :=
  bytes.flatMap fun b => [hexDigit (b / 16 % 16), hexDigit (b % 16)]

/-- The Scalar-Receipt header value built by `IndexerClient::query_indexer`:
`let receipt = hex::encode(receipt); &receipt[0..(receipt.len() - 64)]`.
The slice keeps all but the last 64 hex characters (the Rust code panics when
the hex string is shorter than 64 characters; `Nat` subtraction truncates). -/
def scalarReceiptHeader (receipt : List Nat) : List Char :=
  let r := hexEncode receipt
  r.take (r.length - 64)

/-- Strip the last `k` characters of a string: the independent reading of
"hex(receipt) with its last k hex characters stripped". -/
def stripLast (k : Nat) (l : List Char) : List Char :=
  (l.reverse.drop k).reverse

/-! ## Collection/allocation identifiers and TAP receipts (receipts.rs)

Identifiers: a collection id is 32 bytes, an allocation id (an address) is
20 bytes.  The conversions between them live in the `thegraph_core`
dependency, whose source is not vendored here. -/

/-- Modelled from the spec: `thegraph_core`'s `CollectionId` to `AllocationId`
conversion (the crate is a dependency, not vendored in this repository).  Per
the spec, a `CollectionId` is 32 bytes and "its low 20 bytes are interpretable
as an `Address`"; the conversion truncates to those low (trailing) 20 bytes. -/
def collectionToAllocation (c : List Nat) : List Nat :=
  c.drop 12

/-- Modelled from the spec: `thegraph_core`'s `AllocationId` to `CollectionId`
conversion (`CollectionId::from`).  Widening places the 20-byte address in the
low 20 bytes and zero-pads the high 12 bytes. -/
def allocationToCollection (a : List Nat) : List Nat :=
  List.replicate 12 0 ++ a

/-- `tap_graph::Receipt` (v1 message): allocation-based. -/
structure V1ReceiptMessage where
  allocation_id : List Nat
  timestamp_ns : Nat
  nonce : Nat
  value : Nat
deriving DecidableEq, Repr

/-- `tap_graph::SignedReceipt` (v1).  The 65-byte signature is abstracted to a
number. -/
structure V1Receipt where
  message : V1ReceiptMessage
  signature : Nat
deriving DecidableEq, Repr

/-- `tap_graph::v2::Receipt` (v2 message): collection-based, with explicit
payer / data service / service provider addresses. -/
structure V2ReceiptMessage where
  collection_id : List Nat
  payer : List Nat
  data_service : List Nat
  service_provider : List Nat
  timestamp_ns : Nat
  nonce : Nat
  value : Nat
deriving DecidableEq, Repr

/-- `tap_graph::v2::SignedReceipt`. -/
structure V2Receipt where
  message : V2ReceiptMessage
  signature : Nat
deriving DecidableEq, Repr

/-- `Receipt`: tagged v1/v2 variant (receipts.rs). -/
inductive Receipt where
  | V1 : V1Receipt → Receipt
  | V2 : V2Receipt → Receipt
deriving DecidableEq, Repr

/-- `Receipt::value`: the fee value from either receipt version. -/
def Receipt.value : Receipt → Nat
  | .V1 r => r.message.value
  | .V2 r => r.message.value

/-- `Receipt::collection`: for v1 converts the allocation id to a collection
id; for v2 returns the collection id directly. -/
def Receipt.collection : Receipt → List Nat
  | .V1 r => allocationToCollection r.message.allocation_id
  | .V2 r => r.message.collection_id

/-- `Receipt::allocation`: for v1 returns the allocation id directly; for v2
converts the collection id to an allocation id. -/
def Receipt.allocation : Receipt → List Nat
  | .V1 r => r.message.allocation_id
  | .V2 r => collectionToAllocation r.message.collection_id

/-- The collection id used by the repository's own receipt tests:
`89b23fea4e46d40e8a4c6cca723e2a03fdd4bec2a00000000000000000000000`. -/
def testCollectionId : List Nat :=
  [0x89, 0xb2, 0x3f, 0xea, 0x4e, 0x46, 0xd4, 0x0e, 0x8a, 0x4c,
   0x6c, 0xca, 0x72, 0x3e, 0x2a, 0x03, 0xfd, 0xd4, 0xbe, 0xc2,
   0xa0, 0, 0, 0, 0, 0, 0, 0, 0, 0, 0, 0]

/-- A concrete v2 receipt built on the test collection id. -/
def testV2Receipt : V2Receipt :=
  { message :=
      { collection_id := testCollectionId
        payer := List.replicate 20 0x11
        data_service := List.replicate 20 0x22
        service_provider := List.replicate 20 0x33
        timestamp_ns := 1234567890
        nonce := 42
        value := 1000 }
    signature := 0 }

/-! ## Attestation sampler (reports.rs)

`AttestationSampler` keeps a set of `(deployment, indexer)` pairs and the
instant of the last eviction.  Deployments and indexer addresses are abstract
identifiers; time is in seconds (the source compares against
`Duration::from_secs(10)` with a strict `>`). -/

/-- A `(deployment, indexer)` pair. -/
abbrev SamplerKey := Nat × Nat

/-- The `AttestationSampler` state: `records: HashSet<(DeploymentId, Address)>`
(modelled as a list whose membership is the set membership) and
`last_eviction: Instant`. -/
structure AttestationSampler where
  records : List SamplerKey
  last_eviction : Nat
deriving DecidableEq, Repr

/-- `AttestationSampler::new()`: empty records, `last_eviction = Instant::now()`
(time zero for a trace started at the sampler's creation). -/
def AttestationSampler.new : AttestationSampler :=
  { records := [], last_eviction := 0 }

/-- `AttestationSampler::should_sample`: clear the records when more than 10
seconds have elapsed since the last eviction, then insert the pair, returning
true exactly when it was not yet present. -/
def should_sample (s : AttestationSampler) (now : Nat) (k : SamplerKey) :
    Bool × AttestationSampler :=
  let s1 := if 10 < now - s.last_eviction then
      { records := [], last_eviction := now } else s
  if k ∈ s1.records then (false, s1)
  else (true, { records := k :: s1.records, last_eviction := s1.last_eviction })

/-- Run a trace of `(now, pair)` calls, collecting the returned booleans. -/
def samplerRun : AttestationSampler → List (Nat × SamplerKey) → List Bool
  | _, [] => []
  | s, (now, k) :: rest =>
    let r := should_sample s now k
    r.1 :: samplerRun r.2 rest

/-- Results of a call trace started from a fresh sampler. -/
def samplerResults (calls : List (Nat × SamplerKey)) : List Bool :=
  samplerRun AttestationSampler.new calls

/-- True when no call of the trace triggers the 10-second eviction. -/
def noEvict : AttestationSampler → List (Nat × SamplerKey) → Bool
  | _, [] => true
  | s, (now, k) :: rest =>
    if 10 < now - s.last_eviction then false
    else noEvict (should_sample s now k).2 rest

/-- How many calls of the trace on pair `k` return true. -/
def countTrueFor (k : SamplerKey) :
    AttestationSampler → List (Nat × SamplerKey) → Nat
  | _, [] => 0
  | s, (now, q) :: rest =>
    let r := should_sample s now q
    (if q = k ∧ r.1 = true then 1 else 0) + countTrueFor k r.2 rest

/-- The frozen claim, as a property of a call trace from a fresh sampler: any
two true-returning calls on the same pair are more than 10 seconds apart
(i.e. within any 10-second window at most one call per pair returns true). -/
def atMostOnePerWindow (calls : List (Nat × SamplerKey)) : Prop :=
  ∀ i j : Fin calls.length, i < j →
    (calls.get i).2 = (calls.get j).2 →
    (samplerResults calls).getD i false = true →
    (samplerResults calls).getD j false = true →
    10 < (calls.get j).1 - (calls.get i).1

/-! ## Block-error parsing (graph-gateway indexer_client.rs) -/

/-- `BlockError { unresolved, reported_status }`. -/
structure BlockError where
  unresolved : Option Nat
  reported_status : Option Nat
deriving DecidableEq, Repr

/-- Whether the first list is a leading segment of the second. -/
def headMatch : List Char → List Char → Bool
  | [], _ => true
  | _ :: _, [] => false
  | a :: as, b :: bs => a == b && headMatch as bs

/-- `str::find(needle)`: index of the first occurrence of `needle`. -/
def findSub (needle : List Char) : List Char → Option Nat
  | [] => if headMatch needle [] then some 0 else none
  | c :: rest =>
    if headMatch needle (c :: rest) then some 0
    else (findSub needle rest).map (· + 1)

/-- `str::split_once(c)`: the parts before and after the first occurrence of
`c`; `none` when `c` does not occur. -/
def splitOnce (c : Char) : List Char → Option (List Char × List Char)
  | [] => none
  | x :: xs =>
    if x = c then some ([], xs)
    else (splitOnce c xs).map fun p => (x :: p.1, p.2)

/-- `str::parse::<u64>()`: an optional leading `+`, then one or more ASCII
digits, the value fitting in 64 bits. -/
def parseU64 (s : List Char) : Option Nat :=
  let ds := match s with
    | '+' :: rest => rest
    | _ => s
  if ds.isEmpty then none
  else if ds.all Char.isDigit then
    let v := ds.foldl (fun a c => a * 10 + (c.toNat - 48)) 0
    if v < 2 ^ 64 then some v else none
  else none

/-- The marker substring `check_block_error` requires. -/
def blockErrNeedle : List Char := "Failed to decode `block".toList

/-- The scan marker for the `unresolved` field. -/
def unresolvedNeedle : List Char := "and data for block number ".toList

/-- The scan marker for the `reported_status` field. -/
def reportedStatusNeedle : List Char := "has only indexed up to block number ".toList

/-- The closure `extract_block_number` inside `check_block_error`: find the
needle, split the remaining text at the first space, parse the first part. -/
def extract_block_number (err needle : List Char) : Option Nat :=
  match findSub needle err with
  | none => none
  | some i =>
    match splitOnce ' ' (err.drop (i + needle.length)) with
    | none => none
    | some p => parseU64 p.1

/-- `check_block_error`. -/
def check_block_error (err : List Char) : Except BlockError Unit :=
  if (findSub blockErrNeedle err).isSome then
    .error { unresolved := extract_block_number err unresolvedNeedle
             reported_status := extract_block_number err reportedStatusNeedle }
  else .ok ()

/-- The field value per the (amended) spec wording: the u64 parsed from the
characters strictly between the first occurrence of the needle and the next
space; `none` when the needle is absent, no space follows it, or those
characters do not parse as a u64. -/
def specFieldAfter (needle s : List Char) : Option Nat :=
  match findSub needle s with
  | none => none
  | some i =>
    let tail := s.drop (i + needle.length)
    if tail.any (· == ' ') then parseU64 (tail.takeWhile (· != ' ')) else none

/-- The frozen claim's reading of a field: the u64 parsed immediately after the
needle, i.e. the maximal digit run there. -/
def claimFieldAfter (needle s : List Char) : Option Nat :=
  match findSub needle s with
  | none => none
  | some i => parseU64 ((s.drop (i + needle.length)).takeWhile Char.isDigit)

/-- An error payload whose block number is the final characters of the string:
the source's space-delimited scan yields no value here. -/
def trailingNumberErr : List Char :=
  "Failed to decode `block.number` value: and data for block number 7".toList

/-- The repository test input with no block numbers in the message. -/
def blockHashErr : List Char := "Failed to decode `block.hash` value".toList

/-- What follows the marker substring inside `blockHashErr`. -/
def blockHashErrTail : List Char := ".hash` value".toList

/-! ## Indexer query client response classification
(graph-gateway indexer_client.rs) -/

/-- `Attestation`; the CIDs and signature parts are abstract values. -/
structure Attestation where
  request_cid : Nat
  response_cid : Nat
  deployment : Nat
  v : Nat
  r : Nat
  s : Nat
deriving DecidableEq, Repr

/-- `IndexerResponsePayload`: the JSON body of an indexer response. -/
structure IndexerResponsePayload where
  graphql_response : Option String
  attestation : Option Attestation
  error : Option String
deriving DecidableEq, Repr

/-- `IndexerResponse` (with its `ResponsePayload` flattened in). -/
structure IndexerResponse where
  status : Nat
  body : String
  attestation : Option Attestation
deriving DecidableEq, Repr

/-- `IndexerError`. -/
inductive IndexerError where
  | NoAllocation
  | NoAttestation
  | UnattestableError (status : Nat)
  | Timeout
  | UnexpectedPayload
  | BlockError (err : BlockError)
  | Other (msg : String)
deriving DecidableEq, Repr

/-- The observable outcome of `send().await`: either a transport failure
(with its timeout flag and display message) or an HTTP response carrying a
status and the result of decoding its body as `IndexerResponsePayload`. -/
inductive SendResult where
  | failure (isTimeout : Bool) (msg : String)
  | response (status : Nat) (payload : Except String IndexerResponsePayload)
deriving Repr

/-- The fallback error message for a 200 with no `graphQLResponse` field. -/
def graphqlNotFoundMsg : String := "GraphQL response not found"

/-- A sample transport payload body used in witnesses. -/
def sampleBodyMsg : String := "body"

/-- A sample in-payload error message used in witnesses. -/
def sampleErrMsg : String := "err"

/-- A sample decoded payload with no `graphQLResponse` field. -/
def samplePayloadNoGraphql : IndexerResponsePayload :=
  { graphql_response := none, attestation := none, error := some sampleErrMsg }

/-- The response classification performed by `IndexerClient::query_indexer`
after the send: `error_for_status()` turns any 4xx/5xx into an error (never a
timeout), server errors become `UnattestableError(status)` with the body
dropped, other status errors become `Other`; on a passing status the decoded
payload's `graphQLResponse` is required, else `Other` with the payload `error`
field or the fallback message.  `statusErrMsg` stands for the display
rendering of a reqwest status error. -/
def query_indexer_classify (statusErrMsg : Nat → String) :
    SendResult → Except IndexerError IndexerResponse
  | .failure true _ => .error .Timeout
  | .failure false msg => .error (.Other msg)
  | .response status payload =>
    if 400 ≤ status ∧ status ≤ 599 then
      if 500 ≤ status ∧ status ≤ 599 then .error (.UnattestableError status)
      else .error (.Other (statusErrMsg status))
    else
      match payload with
      | .error msg => .error (.Other msg)
      | .ok p =>
        match p.graphql_response with
        | some body =>
          .ok { status := status, body := body, attestation := p.attestation }
        | none =>
          match p.error with
          | some msg => .error (.Other msg)
          | none => .error (.Other graphqlNotFoundMsg)

/-! ## Horizon tracker (horizon.rs) -/

/-- `TapContract`. -/
structure TapContract where
  id : String
  active : Bool
  created_at_block : Option Nat
deriving DecidableEq, Repr

/-- `GraphNetwork`. -/
structure GraphNetwork where
  id : String
  tap_collection_contracts : List TapContract
  tap_allocation_contracts : List TapContract
deriving DecidableEq, Repr

/-- The aggregation over `data.graph_networks` performed by
`HorizonTracker::query_indexer_for_horizon_status`. -/
def horizon_active (graph_networks : List GraphNetwork) : Bool :=
  graph_networks.any fun network =>
    let active_collection_contracts :=
      (network.tap_collection_contracts.filter fun c => c.active).length
    let active_allocation_contracts :=
      (network.tap_allocation_contracts.filter fun c => c.active).length
    decide (0 < active_collection_contracts) &&
      (decide (active_allocation_contracts = 0) ||
        decide (active_allocation_contracts ≤ active_collection_contracts))

/-! ## Topology snapshot builder (graph-gateway network/snapshot.rs)

Addresses, deployment ids and subgraph ids are abstract identifiers (`Nat`);
semver versions are abstracted to a totally ordered `Nat` code; `HashMap`s are
association lists looked up by first match (input maps have unique keys), and
`HashSet`s are lists whose membership is the set membership.  The record types
(`*Info`) come from `network/internal/types.rs`, reconstructed from every
field access `new_from` performs on them. -/

/-- First-match lookup in an association list (the `HashMap::get` of the
model). -/
def lookupA {β : Type} : List (Nat × β) → Nat → Option β
  | [], _ => none
  | (k, v) :: rest, key => if k = key then some v else lookupA rest key

/-- An allocation record: only the indexer address is consumed. -/
structure AllocationInfo where
  indexer : Nat
deriving DecidableEq, Repr

/-- `DeploymentInfo`. -/
structure DeploymentInfo where
  id : Nat
  manifest_network : Option String
  manifest_start_block : Option Nat
  transferred_to_l2 : Bool
  allocations : List AllocationInfo
deriving DecidableEq, Repr

/-- A subgraph version: its version number and deployment. -/
structure VersionInfo where
  version : Nat
  deployment : DeploymentInfo
deriving DecidableEq, Repr

/-- `SubgraphInfo`. -/
structure SubgraphInfo where
  id : Nat
  id_on_l2 : Option Nat
  versions : List VersionInfo
deriving DecidableEq, Repr

/-- An indexing progress record. -/
structure IndexingProgressInfo where
  latest_block : Nat
  min_block : Option Nat
deriving DecidableEq, Repr

/-- `IndexerInfo`: per-deployment tables are association lists keyed by
deployment id; the cost model handle is abstract. -/
structure IndexerInfo where
  id : Nat
  url : String
  indexer_agent_version : Nat
  graph_node_version : Nat
  staked_tokens : Nat
  deployments : List Nat
  largest_allocation : List (Nat × Nat)
  total_allocated_tokens : List (Nat × Nat)
  indexings_progress : List (Nat × IndexingProgressInfo)
  indexings_cost_model : List (Nat × Nat)
deriving DecidableEq, Repr

/-- `IndexingId`. -/
structure IndexingId where
  indexer : Nat
  deployment : Nat
deriving DecidableEq, Repr

/-- `Indexer` (snapshot entity). -/
structure Indexer where
  id : Nat
  url : String
  indexer_agent_version : Nat
  graph_node_version : Nat
  scalar_tap_support : Bool
  indexings : List Nat
  staked_tokens : Nat
deriving DecidableEq, Repr

/-- `IndexingStatus`. -/
structure IndexingStatus where
  latest_block : Nat
  min_block : Option Nat
deriving DecidableEq, Repr

/-- `Indexing` (snapshot entity). -/
structure Indexing where
  id : IndexingId
  versions_behind : Nat
  largest_allocation : Nat
  total_allocated_tokens : Nat
  indexer : Indexer
  status : Option IndexingStatus
  cost_model : Option Nat
deriving DecidableEq, Repr

/-- `Subgraph` (snapshot entity). -/
structure Subgraph where
  id : Nat
  chain : String
  start_block : Nat
  deployments : List Nat
  indexings : List (IndexingId × Indexing)
deriving DecidableEq, Repr

/-- `Deployment` (snapshot entity). -/
structure Deployment where
  id : Nat
  chain : String
  start_block : Nat
  subgraphs : List Nat
  indexings : List (IndexingId × Indexing)
deriving DecidableEq, Repr

/-- `NetworkTopologySnapshot`. -/
structure NetworkTopologySnapshot where
  transferred_subgraphs : List (Nat × Nat)
  transferred_deployments : List Nat
  subgraphs : List (Nat × Subgraph)
  deployments : List (Nat × Deployment)
deriving DecidableEq, Repr

/-- The minimum indexer agent version for Scalar TAP support (`1.0.0-alpha`),
in the abstract version ordering. -/
def min_required_indexer_agent_version_scalar_tap_support : Nat := 1

/-- The indexer materialization step of `new_from`. -/
def mkIndexer (info : IndexerInfo) : Indexer :=
  { id := info.id
    url := info.url
    indexer_agent_version := info.indexer_agent_version
    graph_node_version := info.graph_node_version
    scalar_tap_support :=
      decide (min_required_indexer_agent_version_scalar_tap_support ≤
        info.indexer_agent_version)
    indexings := info.deployments
    staked_tokens := info.staked_tokens }

/-- `construct_transferred_subgraphs_table`: subgraphs all of whose versions'
deployments are transferred to L2 with no allocations, and that have an L2 id,
mapped to that L2 id. -/
def construct_transferred_subgraphs_table
    (subgraphs_info : List (Nat × SubgraphInfo)) : List (Nat × Nat) :=
  subgraphs_info.filterMap fun entry =>
    let transferred := entry.2.versions.all fun version =>
      version.deployment.transferred_to_l2 &&
        version.deployment.allocations.isEmpty
    if transferred then entry.2.id_on_l2.map fun l2 => (entry.1, l2) else none

/-- `construct_transferred_deployments_table`: deployments transferred to L2
with no allocations. -/
def construct_transferred_deployments_table
    (deployments_info : List (Nat × DeploymentInfo)) : List Nat :=
  deployments_info.filterMap fun entry =>
    if entry.2.transferred_to_l2 && entry.2.allocations.isEmpty then
      some entry.1
    else none

/-- The per-allocation indexing materialization shared by the subgraphs and
deployments passes of `new_from`: accept the allocation only if the indexer is
known, its healthy-deployments list contains this deployment, and largest
allocation and total allocated tokens entries exist; attach the optional
status and cost model. -/
def mkIndexing (indexers_info : List (Nat × IndexerInfo))
    (indexers : List (Nat × Indexer)) (deployment_id versions_behind : Nat)
    (alloc : AllocationInfo) : Option (IndexingId × Indexing) :=
  match lookupA indexers_info alloc.indexer with
  | none => none
  | some info =>
    if ¬ deployment_id ∈ info.deployments then none
    else
      match lookupA indexers alloc.indexer with
      | none => none
      | some indexer =>
        match lookupA info.largest_allocation deployment_id with
        | none => none
        | some largest_allocation_addr =>
          match lookupA info.total_allocated_tokens deployment_id with
          | none => none
          | some total_allocated_tokens =>
            let status := (lookupA info.indexings_progress deployment_id).map
              fun st =>
                ({ latest_block := st.latest_block
                   min_block := st.min_block } : IndexingStatus)
            let cost_model := lookupA info.indexings_cost_model deployment_id
            let indexing_id : IndexingId :=
              { indexer := alloc.indexer, deployment := deployment_id }
            some (indexing_id,
              { id := indexing_id
                versions_behind := versions_behind
                largest_allocation := largest_allocation_addr
                total_allocated_tokens := total_allocated_tokens
                indexer := indexer
                status := status
                cost_model := cost_model })

/-- The per-subgraph construction of `new_from`'s subgraphs pass: drop
transferred subgraphs, filter versions to those with a manifest network that
are not transferred deployments, derive chain / start block / versions-behind
from the highest (first) remaining version, materialize the indexings and the
deployments set, dropping the subgraph if the filters empty them. -/
def mkSubgraph (indexers_info : List (Nat × IndexerInfo))
    (indexers : List (Nat × Indexer)) (transferred_subgraphs : List (Nat × Nat))
    (transferred_deployments : List Nat) (entry : Nat × SubgraphInfo) :
    Option (Nat × Subgraph) :=
  if (lookupA transferred_subgraphs entry.1).isSome then none
  else
    let versions := entry.2.versions.filter fun version =>
      version.deployment.manifest_network.isSome &&
        ¬ version.deployment.id ∈ transferred_deployments
    if versions.isEmpty then none
    else
      match versions.head? with
      | none => none
      | some highest_version =>
        match highest_version.deployment.manifest_network with
        | none => none
        | some chain =>
          let start_block :=
            highest_version.deployment.manifest_start_block.getD 0
          let versions_behind_table := versions.map fun version =>
            (version.deployment.id,
              min (highest_version.version - version.version) 255)
          let subgraph_indexings := versions.flatMap fun version =>
            let deployment_id := version.deployment.id
            let versions_behind :=
              (lookupA versions_behind_table deployment_id).getD 255
            version.deployment.allocations.filterMap
              (mkIndexing indexers_info indexers deployment_id versions_behind)
          if subgraph_indexings.isEmpty then none
          else
            let subgraph_deployments :=
              subgraph_indexings.map fun p => p.1.deployment
            if subgraph_deployments.isEmpty then none
            else
              some (entry.1,
                { id := entry.2.id
                  chain := chain
                  start_block := start_block
                  deployments := subgraph_deployments
                  indexings := subgraph_indexings })

/-- The per-deployment construction of `new_from`'s deployments pass. -/
def mkDeployment (indexers_info : List (Nat × IndexerInfo))
    (indexers : List (Nat × Indexer)) (transferred_deployments : List Nat)
    (subgraphs : List (Nat × Subgraph)) (entry : Nat × DeploymentInfo) :
    Option (Nat × Deployment) :=
  if entry.1 ∈ transferred_deployments then none
  else
    match entry.2.manifest_network with
    | none => none
    | some chain =>
      match entry.2.manifest_start_block with
      | none => none
      | some start_block =>
        let deployment_indexings := entry.2.allocations.filterMap
          (mkIndexing indexers_info indexers entry.1 0)
        if deployment_indexings.isEmpty then none
        else
          let deployment_subgraphs := subgraphs.filterMap fun sgEntry =>
            if entry.1 ∈ sgEntry.2.deployments then some sgEntry.1 else none
          if deployment_subgraphs.isEmpty then none
          else
            some (entry.1,
              { id := entry.1
                chain := chain
                start_block := start_block
                subgraphs := deployment_subgraphs
                indexings := deployment_indexings })

/-- `new_from`: construct the `NetworkTopologySnapshot` from the indexers and
subgraphs information.  (Collecting into a `HashMap` deduplicates keys with
later entries winning; the association-list model keeps all produced entries,
which leaves every per-key property and the key sets unchanged.) -/
def new_from (indexers_info : List (Nat × IndexerInfo))
    (subgraphs_info : List (Nat × SubgraphInfo)) : NetworkTopologySnapshot :=
  let deployments_info := subgraphs_info.flatMap fun entry =>
    entry.2.versions.map fun version => (version.deployment.id, version.deployment)
  let indexers := indexers_info.map fun entry => (entry.1, mkIndexer entry.2)
  let transferred_subgraphs := construct_transferred_subgraphs_table subgraphs_info
  let transferred_deployments :=
    construct_transferred_deployments_table deployments_info
  let subgraphs := subgraphs_info.filterMap
    (mkSubgraph indexers_info indexers transferred_subgraphs
      transferred_deployments)
  let deployments := deployments_info.filterMap
    (mkDeployment indexers_info indexers transferred_deployments subgraphs)
  { transferred_subgraphs := transferred_subgraphs
    transferred_deployments := transferred_deployments
    subgraphs := subgraphs
    deployments := deployments }

/-- The chain name used by the witness records. -/
def mainnetChain : String := "mainnet"

/-- A concrete indexer record used in witnesses. -/
def witnessIndexerInfo : IndexerInfo :=
  { id := 7
    url := "http"
    indexer_agent_version := 1
    graph_node_version := 1
    staked_tokens := 0
    deployments := [3]
    largest_allocation := [(3, 9)]
    total_allocated_tokens := [(3, 5)]
    indexings_progress := []
    indexings_cost_model := [] }

/-- A concrete deployment record used in witnesses. -/
def witnessDeploymentInfo : DeploymentInfo :=
  { id := 3
    manifest_network := some mainnetChain
    manifest_start_block := some 0
    transferred_to_l2 := false
    allocations := [{ indexer := 7 }] }

/-- A concrete subgraph record used in witnesses. -/
def witnessSubgraphInfo : SubgraphInfo :=
  { id := 100
    id_on_l2 := none
    versions := [{ version := 0, deployment := witnessDeploymentInfo }] }

/-- A versionless subgraph record carrying an L2 id, used in witnesses. -/
def witnessEmptySubgraphInfo : SubgraphInfo :=
  { id := 5, id_on_l2 := some 55, versions := [] }

/-! ## Receipt JSON serialization (receipts.rs)

The wire format is the serde_json rendering of the signed receipt structs.
The model works at the level of JSON values rather than text (serde_json's
printing and parsing of a value are mutually inverse); the fixed byte arrays,
which serde renders as hex strings, appear as a `bytes` node.  Decoding
matches fields by name, ignores unknown fields and fails on missing ones,
as serde's derived deserializers do. -/

/-- A JSON value, restricted to the shapes receipts use. -/
inductive Json where
  | num : Nat → Json
  | str : String → Json
  | bytes : List Nat → Json
  | obj : List (String × Json) → Json

/-- Serde field names of the signed receipt envelope and messages. -/
def fMessage : String := "message"

def fSignature : String := "signature"

def fAllocationId : String := "allocation_id"

def fCollectionId : String := "collection_id"

def fPayer : String := "payer"

def fDataService : String := "data_service"

def fServiceProvider : String := "service_provider"

def fTimestampNs : String := "timestamp_ns"

def fNonce : String := "nonce"

def fValue : String := "value"

/-- Field lookup in a JSON object (serde matches by name). -/
def jField : List (String × Json) → String → Option Json
  | [], _ => none
  | (k, v) :: rest, key => if k = key then some v else jField rest key

/-- Expect a number node. -/
def jNum : Json → Option Nat
  | .num n => some n
  | _ => none

/-- Expect a byte-string node. -/
def jBytes : Json → Option (List Nat)
  | .bytes b => some b
  | _ => none

/-- Expect an object node. -/
def jObj : Json → Option (List (String × Json))
  | .obj fields => some fields
  | _ => none

/-- serde_json serialization of a v1 `SignedReceipt`. -/
def encodeV1 (r : V1Receipt) : Json :=
  .obj [(fMessage, .obj
      [(fAllocationId, .bytes r.message.allocation_id),
       (fTimestampNs, .num r.message.timestamp_ns),
       (fNonce, .num r.message.nonce),
       (fValue, .num r.message.value)]),
    (fSignature, .num r.signature)]

/-- serde_json serialization of a v2 `SignedReceipt`. -/
def encodeV2 (r : V2Receipt) : Json :=
  .obj [(fMessage, .obj
      [(fCollectionId, .bytes r.message.collection_id),
       (fPayer, .bytes r.message.payer),
       (fDataService, .bytes r.message.data_service),
       (fServiceProvider, .bytes r.message.service_provider),
       (fTimestampNs, .num r.message.timestamp_ns),
       (fNonce, .num r.message.nonce),
       (fValue, .num r.message.value)]),
    (fSignature, .num r.signature)]

/-- serde_json deserialization of a v1 `SignedReceipt`: all of the message's
fields and the signature must be present and well-typed. -/
def decodeV1 (j : Json) : Option V1Receipt :=
  match jObj j with
  | none => none
  | some fields =>
    match (jField fields fMessage).bind jObj with
    | none => none
    | some msg =>
      match (jField msg fAllocationId).bind jBytes,
          (jField msg fTimestampNs).bind jNum,
          (jField msg fNonce).bind jNum,
          (jField msg fValue).bind jNum,
          (jField fields fSignature).bind jNum with
      | some allocation_id, some timestamp_ns, some nonce, some value,
          some signature =>
        some { message := { allocation_id, timestamp_ns, nonce, value },
               signature }
      | _, _, _, _, _ => none

/-- serde_json deserialization of a v2 `SignedReceipt`. -/
def decodeV2 (j : Json) : Option V2Receipt :=
  match jObj j with
  | none => none
  | some fields =>
    match (jField fields fMessage).bind jObj with
    | none => none
    | some msg =>
      match (jField msg fCollectionId).bind jBytes,
          (jField msg fPayer).bind jBytes,
          (jField msg fDataService).bind jBytes,
          (jField msg fServiceProvider).bind jBytes,
          (jField msg fTimestampNs).bind jNum,
          (jField msg fNonce).bind jNum,
          (jField msg fValue).bind jNum,
          (jField fields fSignature).bind jNum with
      | some collection_id, some payer, some data_service,
          some service_provider, some timestamp_ns, some nonce, some value,
          some signature =>
        some { message := { collection_id, payer, data_service,
                            service_provider, timestamp_ns, nonce, value },
               signature }
      | _, _, _, _, _, _, _, _ => none

/-- `Receipt::serialize`: serde_json of the underlying signed receipt. -/
def Receipt.serializeJson : Receipt → Json
  | .V1 r => encodeV1 r
  | .V2 r => encodeV2 r

/-- The parse failure message of `Receipt::from_json`. -/
def parseFailMsg : String := "Failed to parse receipt as either v1 or v2 format"

/-- `Receipt::from_json`: try v2 first, then v1, else fail. -/
def Receipt.from_json (j : Json) : Except String Receipt :=
  match decodeV2 j with
  | some v2 => .ok (.V2 v2)
  | none =>
    match decodeV1 j with
    | some v1 => .ok (.V1 v1)
    | none => .error parseFailMsg

/-- A concrete v1 receipt used in witnesses. -/
def sampleV1Receipt : V1Receipt :=
  { message :=
      { allocation_id := List.replicate 20 2
        timestamp_ns := 1234567890
        nonce := 42
        value := 1000 }
    signature := 3 }

/-! ## POI resolver and TTL cache
(graph-gateway network/indexer_indexing_poi_resolver.rs) -/

/-- A TTL cache entry: a value and its insertion time. -/
structure TtlEntry (V : Type) where
  inserted_at : Nat
  value : V
deriving DecidableEq, Repr

/-- Modelled from the spec: `gateway_common::ttl_hash_map::TtlHashMap::get` is
not vendored under src/.  Per the spec, a "TTL cache entry = (key, value,
insertion_time); expired when `now - insertion_time > ttl`", and the "cache
never serves an entry older than its TTL". -/
def ttlGet {V : Type} (ttl now : Nat) (cache : List (Nat × TtlEntry V))
    (key : Nat) : Option V :=
  match lookupA cache key with
  | none => none
  | some entry =>
    if ttl < now - entry.inserted_at then none else some entry.value

/-- Modelled from the spec: `TtlHashMap::insert` records the value together
with the current instant. -/
def ttlInsert {V : Type} (now : Nat) (cache : List (Nat × TtlEntry V))
    (key : Nat) (value : V) : List (Nat × TtlEntry V) :=
  (key, { inserted_at := now, value := value }) :: cache

/-- A resolved POI map: `(deployment, block) → poi`, each value abstract. -/
abbrev PoiMap := List ((Nat × Nat) × Nat)

/-- First-match lookup in a POI map. -/
def lookupPoi : PoiMap → Nat × Nat → Option Nat
  | [], _ => none
  | (k, v) :: rest, key => if k = key then some v else lookupPoi rest key

/-- `PoiResolver::resolve`: normalize the URL to the indexer status URL, serve
a fresh cache entry as a clone, otherwise fetch and cache the result.  URLs
are abstract ids and `statusUrl` stands for `indexers::status_url`; the
`fetch` oracle is the whole batched upstream call
(`fetch_indexer_public_pois`), whose `.error` outcome is the resolution
timeout — which leaves the cache untouched.  The cache state is threaded
explicitly. -/
def resolvePoi (statusUrl : Nat → Nat)
    (fetch : List (Nat × Nat) → Except Unit PoiMap) (ttl now : Nat)
    (cache : List (Nat × TtlEntry PoiMap)) (url : Nat)
    (pois : List (Nat × Nat)) :
    Except Unit PoiMap × List (Nat × TtlEntry PoiMap) :=
  let indexer_status_url := statusUrl url
  match ttlGet ttl now cache indexer_status_url with
  | some cached => (.ok cached, cache)
  | none =>
    match fetch pois with
    | .error e => (.error e, cache)
    | .ok fetched =>
      (.ok fetched, ttlInsert now cache indexer_status_url fetched)

/-- A concrete cached POI map used in witnesses. -/
def witnessPoiMap : PoiMap := [((2, 3), 9)]

/-- A concrete POI cache holding `witnessPoiMap` for status URL 1. -/
def witnessPoiCache : List (Nat × TtlEntry PoiMap) :=
  [(1, { inserted_at := 0, value := witnessPoiMap })]

end Gateway

/-! ## Theorems -/

namespace Gateway

theorem hexEncode_length (bytes : List Nat) :
    (hexEncode bytes).length = 2 * bytes.length := by
  induction bytes with
  | nil => rfl
  | cons b bs ih =>
    simp [hexEncode] at ih ⊢
    omega

theorem stripLast_eq_take (k : Nat) (l : List Char) :
    stripLast k l = l.take (l.length - k) := by
  rw [stripLast, ← List.rdrop_eq_reverse_drop_reverse, List.rdrop]

/-- Claim C1 (corrected: counterexample): the Scalar-Receipt header is not, in
general, the hex encoding with the last 32 hex characters stripped.  For a
33-byte receipt the code keeps the first 2 hex characters, not the first 34. -/
theorem scalarReceiptHeader_not_strip32 :
    scalarReceiptHeader (List.replicate 33 0) ≠
      stripLast 32 (hexEncode (List.replicate 33 0)) := by
  decide

/-- Claim C1 (amended): for every receipt of at least 32 bytes, the
Scalar-Receipt header value equals the hex encoding of the receipt with its
last 64 hex characters (32 bytes) stripped. -/
theorem scalarReceiptHeader_strips_last_64 (receipt : List Nat)
    (_h : 32 ≤ receipt.length) :
    scalarReceiptHeader receipt = stripLast 64 (hexEncode receipt) := by
  rw [stripLast_eq_take, scalarReceiptHeader, hexEncode_length]

/-- Witness for the amended C1 theorem at a concrete 33-byte receipt. -/
theorem scalarReceiptHeader_strips_last_64_witness :
    scalarReceiptHeader (List.replicate 33 1) =
      stripLast 64 (hexEncode (List.replicate 33 1)) :=
  scalarReceiptHeader_strips_last_64 (List.replicate 33 1) (by decide)

/-- Claim C3 (corrected: counterexample): truncating a v2 receipt's collection
id to its allocation form and widening back with zero padding does not return
the original collection id when the high 12 bytes are nonzero.  The collection
id used in the repository's own tests is such a counterexample. -/
theorem collection_roundtrip_fails_on_test_id :
    allocationToCollection (Receipt.allocation (.V2 testV2Receipt)) ≠
      Receipt.collection (.V2 testV2Receipt) := by
  decide

/-- Claim C3 (amended): for every v2 receipt whose collection id's high 12
bytes are zero, `CollectionId::from(r.allocation()) = r.collection()`. -/
theorem collection_roundtrip_of_zero_high_bytes (r : V2Receipt)
    (h : r.message.collection_id.take 12 = List.replicate 12 0) :
    allocationToCollection (Receipt.allocation (.V2 r)) =
      Receipt.collection (.V2 r) := by
  show allocationToCollection (collectionToAllocation r.message.collection_id)
      = r.message.collection_id
  rw [allocationToCollection, collectionToAllocation, ← h,
    List.take_append_drop]

theorem mem_records_should_sample {s : AttestationSampler} {now : Nat}
    {k q : SamplerKey} (hmem : k ∈ s.records)
    (hev : ¬ 10 < now - s.last_eviction) :
    k ∈ ((should_sample s now q).2).records := by
  unfold should_sample
  simp only [if_neg hev]
  by_cases hq : q ∈ s.records
  · simpa [hq]
  · simp [hq]
    exact Or.inr hmem

theorem should_sample_false_of_mem {s : AttestationSampler} {now : Nat}
    {k : SamplerKey} (hmem : k ∈ s.records)
    (hev : ¬ 10 < now - s.last_eviction) :
    (should_sample s now k).1 = false := by
  unfold should_sample
  simp [if_neg hev, hmem]

theorem mem_records_of_should_sample_true {s : AttestationSampler} {now : Nat}
    {k : SamplerKey} (h : (should_sample s now k).1 = true) :
    k ∈ ((should_sample s now k).2).records := by
  unfold should_sample at h ⊢
  by_cases hmem : k ∈ (if 10 < now - s.last_eviction then
      ({ records := [], last_eviction := now } : AttestationSampler) else s).records
  · simp [hmem] at h
  · simp [hmem]

theorem countTrueFor_eq_zero_of_mem (k : SamplerKey) :
    ∀ (calls : List (Nat × SamplerKey)) (s : AttestationSampler),
      k ∈ s.records → noEvict s calls = true → countTrueFor k s calls = 0 := by
  intro calls
  induction calls with
  | nil => intro s _ _; rfl
  | cons c rest ih =>
    intro s hmem hne
    obtain ⟨now, q⟩ := c
    have hev : ¬ 10 < now - s.last_eviction := by
      by_contra hev
      simp [noEvict, if_pos hev] at hne
    have hne' : noEvict (should_sample s now q).2 rest = true := by
      simpa [noEvict, if_neg hev] using hne
    have hrest := ih (should_sample s now q).2
      (mem_records_should_sample hmem hev) hne'
    simp only [countTrueFor]
    rw [hrest]
    by_cases hq : q = k
    · have hfalse : (should_sample s now q).1 = false := by
        rw [hq]; exact should_sample_false_of_mem hmem hev
      simp [hfalse]
    · simp [hq]

/-- Claim C2 (corrected: counterexample): the sliding-window property fails on
the code.  From a fresh sampler, calls on the same pair at 9 s and 11 s — only
2 s apart — both return true, because the second call first triggers the
eviction (11 s elapsed since the initial eviction instant) and re-inserts the
pair into the cleared set. -/
theorem sampler_window_counterexample :
    ¬ atMostOnePerWindow [(9, (0, 0)), (11, (0, 0))] := by
  unfold atMostOnePerWindow
  decide

/-- Claim C2 (amended): within a single eviction epoch — over any sequence of
`should_sample` calls none of which triggers the 10-second eviction — at most
one call returns true for any given `(deployment, indexer)` pair.  (Two true
results for the same pair can occur less than 10 s apart when an eviction
intervenes, as the counterexample shows.) -/
theorem sampler_at_most_one_true_between_evictions (k : SamplerKey) :
    ∀ (calls : List (Nat × SamplerKey)) (s : AttestationSampler),
      noEvict s calls = true → countTrueFor k s calls ≤ 1 := by
  intro calls
  induction calls with
  | nil => intro s _; simp [countTrueFor]
  | cons c rest ih =>
    intro s hne
    obtain ⟨now, q⟩ := c
    have hev : ¬ 10 < now - s.last_eviction := by
      by_contra hev
      simp [noEvict, if_pos hev] at hne
    have hne' : noEvict (should_sample s now q).2 rest = true := by
      simpa [noEvict, if_neg hev] using hne
    simp only [countTrueFor]
    by_cases hq : q = k
    · cases hr : (should_sample s now q).1 with
      | false => simpa [hr] using ih _ hne'
      | true =>
        have hmem : k ∈ ((should_sample s now q).2).records := by
          rw [← hq]; exact mem_records_of_should_sample_true hr
        have hz := countTrueFor_eq_zero_of_mem k rest
          (should_sample s now q).2 hmem hne'
        rw [if_pos ⟨hq, rfl⟩, hz]
    · simpa [hq] using ih _ hne'

/-- Witness for the amended C2 theorem: a concrete no-eviction trace with two
calls on the same pair yields at most one true. -/
theorem sampler_at_most_one_true_between_evictions_witness :
    countTrueFor (0, 0) AttestationSampler.new
      [(1, (0, 0)), (2, (0, 0)), (3, (1, 2))] ≤ 1 :=
  sampler_at_most_one_true_between_evictions (0, 0)
    [(1, (0, 0)), (2, (0, 0)), (3, (1, 2))] AttestationSampler.new (by decide)

theorem headMatch_iff (n l : List Char) : headMatch n l = true ↔ n <+: l := by
  induction n generalizing l with
  | nil => simp [headMatch]
  | cons a as ih =>
    cases l with
    | nil => simp [headMatch]
    | cons b bs =>
      simp [headMatch, ih, List.cons_prefix_cons]

theorem findSub_isSome_iff (n : List Char) (s : List Char) :
    (findSub n s).isSome = true ↔ n <:+: s := by
  induction s with
  | nil =>
    cases n with
    | nil => simp [findSub, headMatch]
    | cons a as => simp [findSub, headMatch]
  | cons c rest ih =>
    by_cases h : headMatch n (c :: rest) = true
    · simp [findSub, h]
      exact ((headMatch_iff n (c :: rest)).mp h).isInfix
    · simp [findSub, h, Option.isSome_map]
      rw [ih, List.infix_cons_iff]
      simp [← headMatch_iff, h]

theorem splitOnce_map_fst (ch : Char) (t : List Char) :
    (splitOnce ch t).map Prod.fst =
      if t.any (· == ch) then some (t.takeWhile (· != ch)) else none := by
  induction t with
  | nil => simp [splitOnce]
  | cons x xs ih =>
    by_cases hx : x = ch
    · subst hx
      simp [splitOnce, List.takeWhile_cons]
    · simp only [splitOnce, if_neg hx, Option.map_map]
      have : (Prod.fst ∘ fun p : List Char × List Char => (x :: p.1, p.2)) =
          fun p : List Char × List Char => x :: p.1 := rfl
      rw [this]
      have hx' : (x == ch) = false := by simp [hx]
      by_cases hany : xs.any (· == ch) = true
      · cases hsp : splitOnce ch xs with
        | none => rw [hsp] at ih; simp [hany] at ih
        | some p =>
          rw [hsp] at ih
          simp only [hany, Option.map_some, if_true] at ih
          simp [List.any_cons, hx', hany, List.takeWhile_cons, hx,
            Option.map_some]
          injection ih
      · cases hsp : splitOnce ch xs with
        | none => simp [List.any_cons, hx', hany]
        | some p => rw [hsp] at ih; simp [hany] at ih

theorem collection_roundtrip_of_zero_high_bytes_witness :
    allocationToCollection
        (Receipt.allocation (.V2
          { testV2Receipt with
            message := { testV2Receipt.message with
              collection_id := List.replicate 12 0 ++ List.replicate 20 7 } })) =
      Receipt.collection (.V2
        { testV2Receipt with
          message := { testV2Receipt.message with
            collection_id := List.replicate 12 0 ++ List.replicate 20 7 } }) :=
  collection_roundtrip_of_zero_high_bytes _ (by decide)

theorem extract_block_number_eq_spec (needle s : List Char) :
    extract_block_number s needle = specFieldAfter needle s := by
  unfold extract_block_number specFieldAfter
  cases hf : findSub needle s with
  | none => rfl
  | some i =>
    have hmap := splitOnce_map_fst ' ' (s.drop (i + needle.length))
    dsimp only
    cases hsp : splitOnce ' ' (s.drop (i + needle.length)) with
    | none =>
      rw [hsp] at hmap
      by_cases hany : (s.drop (i + needle.length)).any (· == ' ') = true
      · rw [if_pos hany] at hmap; simp at hmap
      · simp [hany]
    | some p =>
      rw [hsp] at hmap
      by_cases hany : (s.drop (i + needle.length)).any (· == ' ') = true
      · rw [if_pos hany] at hmap
        simp only [Option.map, Option.some.injEq] at hmap
        simp [hany, hmap]
      · rw [if_neg hany] at hmap; simp at hmap

/-- Claim C4 (corrected: counterexample): when the block number is the final
text of the error string — so that no space follows it — the code's
space-delimited scan yields `None` even though the u64 `7` parses immediately
after the `unresolved` marker. -/
theorem check_block_error_trailing_number :
    check_block_error trailingNumberErr =
        .error { unresolved := none, reported_status := none } ∧
      claimFieldAfter unresolvedNeedle trailingNumberErr = some 7 := by
  constructor
  · rfl
  · rfl

/-- Claim C4 (amended): `check_block_error(s)` returns `Ok(())` iff `s` does
not contain the marker substring; otherwise it returns a `BlockError` whose
`unresolved` field is the u64 parsed from the characters strictly between the
first occurrence of the `unresolved` marker and the next space (`None` when
the marker is absent, no space follows it, or those characters do not parse
as u64), and whose `reported_status` field is likewise parsed after its own
marker. -/
theorem check_block_error_spec (s : List Char) :
    (check_block_error s = .ok () ↔ ¬ blockErrNeedle <:+: s) ∧
      (blockErrNeedle <:+: s →
        check_block_error s =
          .error { unresolved := specFieldAfter unresolvedNeedle s
                   reported_status := specFieldAfter reportedStatusNeedle s }) := by
  unfold check_block_error
  by_cases h : (findSub blockErrNeedle s).isSome = true
  · have hinf := (findSub_isSome_iff blockErrNeedle s).mp h
    rw [if_pos h]
    refine ⟨⟨fun hcontra => ?_, fun hno => absurd hinf hno⟩, fun _ => ?_⟩
    · simp at hcontra
    · rw [extract_block_number_eq_spec, extract_block_number_eq_spec]
  · have hninf : ¬ blockErrNeedle <:+: s := fun hc =>
      h ((findSub_isSome_iff blockErrNeedle s).mpr hc)
    rw [if_neg h]
    exact ⟨⟨fun _ => hninf, fun _ => rfl⟩, fun hc => absurd hc hninf⟩

/-- Witness for the amended C4 theorem: the repository's own test input, whose
message contains the marker but no block numbers, yields an empty BlockError. -/
theorem check_block_error_spec_witness :
    check_block_error blockHashErr =
      .error { unresolved := none, reported_status := none } := by
  have h := (check_block_error_spec blockHashErr).2
    ⟨[], blockHashErrTail, by decide⟩
  rw [h]
  rfl

/-- Claim C5 (confirmed): `query_indexer` classifies every HTTP 5xx status as
`UnattestableError(status)` regardless of the response body, and every
successfully decoded 200 payload without a `graphQLResponse` field as
`Other(e)` where `e` is the payload's `error` field when present and the
string "GraphQL response not found" otherwise. -/
theorem query_indexer_classification (statusErrMsg : Nat → String)
    (status : Nat) (payload : Except String IndexerResponsePayload)
    (p : IndexerResponsePayload) :
    (500 ≤ status → status ≤ 599 →
      query_indexer_classify statusErrMsg (.response status payload) =
        .error (.UnattestableError status)) ∧
      (status = 200 → p.graphql_response = none →
        query_indexer_classify statusErrMsg (.response status (.ok p)) =
          .error (.Other (p.error.getD graphqlNotFoundMsg))) := by
  constructor
  · intro h5 h9
    simp only [query_indexer_classify]
    rw [if_pos ⟨by omega, h9⟩, if_pos ⟨h5, h9⟩]
  · intro h200 hg
    subst h200
    simp only [query_indexer_classify]
    rw [if_neg (by omega)]
    cases he : p.error <;> simp [hg, he]

/-- Witness for the C5 theorem: a 503 with an undecodable body is
unattestable, and a 200 payload missing `graphQLResponse` surfaces the
payload's error field. -/
theorem query_indexer_classification_witness :
    query_indexer_classify (fun _ => sampleBodyMsg)
        (.response 503 (.error sampleBodyMsg)) =
        .error (.UnattestableError 503) ∧
      query_indexer_classify (fun _ => sampleBodyMsg)
          (.response 200 (.ok samplePayloadNoGraphql)) =
        .error (.Other sampleErrMsg) := by
  constructor
  · exact (query_indexer_classification (fun _ => sampleBodyMsg) 503
      (.error sampleBodyMsg) samplePayloadNoGraphql).1 (by omega) (by omega)
  · have h := (query_indexer_classification (fun _ => sampleBodyMsg) 200
      (.ok samplePayloadNoGraphql) samplePayloadNoGraphql).2 rfl rfl
    simpa [samplePayloadNoGraphql] using h

theorem lookupA_isSome_of_mem {β : Type} {l : List (Nat × β)} {k : Nat} {v : β}
    (h : (k, v) ∈ l) : (lookupA l k).isSome = true := by
  induction l with
  | nil => simp at h
  | cons e rest ih =>
    rw [List.mem_cons] at h
    rcases h with h | htail
    · rw [← h]; simp [lookupA]
    · obtain ⟨k1, v1⟩ := e
      by_cases he : k1 = k <;> simp [lookupA, he, ih htail]

theorem mkIndexing_eq_some {indexers_info : List (Nat × IndexerInfo)}
    {indexers : List (Nat × Indexer)} {deployment_id versions_behind : Nat}
    {alloc : AllocationInfo} {k : IndexingId} {ind : Indexing}
    (h : mkIndexing indexers_info indexers deployment_id versions_behind alloc =
      some (k, ind)) :
    k.indexer = alloc.indexer ∧ k.deployment = deployment_id ∧
      ∃ info, lookupA indexers_info alloc.indexer = some info ∧
        deployment_id ∈ info.deployments := by
  unfold mkIndexing at h
  split at h
  · simp at h
  · rename_i info h1
    split at h
    · simp at h
    · rename_i h2
      rw [not_not] at h2
      split at h
      · simp at h
      · split at h
        · simp at h
        · split at h
          · simp at h
          · simp only [Option.some.injEq, Prod.mk.injEq] at h
            obtain ⟨hk, -⟩ := h
            exact ⟨by rw [← hk], by rw [← hk], info, h1, h2⟩

theorem mkSubgraph_fst {indexers_info : List (Nat × IndexerInfo)}
    {indexers : List (Nat × Indexer)} {transferred_subgraphs : List (Nat × Nat)}
    {transferred_deployments : List Nat} {entry : Nat × SubgraphInfo}
    {p : Nat × Subgraph}
    (h : mkSubgraph indexers_info indexers transferred_subgraphs
      transferred_deployments entry = some p) : p.1 = entry.1 := by
  unfold mkSubgraph at h
  dsimp only at h
  split at h
  · simp at h
  · split at h
    · simp at h
    · split at h
      · simp at h
      · split at h
        · simp at h
        · split at h
          · simp at h
          · split at h
            · simp at h
            · simp only [Option.some.injEq] at h
              rw [← h]

theorem mkSubgraph_indexings {indexers_info : List (Nat × IndexerInfo)}
    {indexers : List (Nat × Indexer)} {transferred_subgraphs : List (Nat × Nat)}
    {transferred_deployments : List Nat} {entry : Nat × SubgraphInfo}
    {p : Nat × Subgraph}
    (h : mkSubgraph indexers_info indexers transferred_subgraphs
      transferred_deployments entry = some p) :
    ∀ q ∈ p.2.indexings, ∃ (deployment_id versions_behind : Nat)
      (alloc : AllocationInfo),
        mkIndexing indexers_info indexers deployment_id versions_behind alloc =
          some q := by
  unfold mkSubgraph at h
  dsimp only at h
  split at h
  · simp at h
  · split at h
    · simp at h
    · split at h
      · simp at h
      · split at h
        · simp at h
        · split at h
          · simp at h
          · split at h
            · simp at h
            · simp only [Option.some.injEq] at h
              intro q hq
              rw [← h] at hq
              simp only [List.mem_flatMap] at hq
              obtain ⟨version, -, hq⟩ := hq
              rw [List.mem_filterMap] at hq
              obtain ⟨alloc, -, halloc⟩ := hq
              exact ⟨_, _, alloc, halloc⟩

/-- Claim C7 (confirmed): for every snapshot produced by `new_from`, every
`IndexingId` key in any subgraph's indexings names an indexer present in
`indexers_info` whose healthy-deployments list contains the key's deployment. -/
theorem snapshot_subgraph_indexings_wf
    (indexers_info : List (Nat × IndexerInfo))
    (subgraphs_info : List (Nat × SubgraphInfo))
    (sid : Nat) (sg : Subgraph)
    (hsg : (sid, sg) ∈ (new_from indexers_info subgraphs_info).subgraphs)
    (k : IndexingId) (ind : Indexing) (hk : (k, ind) ∈ sg.indexings) :
    ∃ info, lookupA indexers_info k.indexer = some info ∧
      k.deployment ∈ info.deployments := by
  simp only [new_from] at hsg
  rw [List.mem_filterMap] at hsg
  obtain ⟨entry, -, hmk⟩ := hsg
  obtain ⟨deployment_id, versions_behind, alloc, halloc⟩ :=
    mkSubgraph_indexings hmk (k, ind) hk
  obtain ⟨hk1, hk2, info, hlook, hmem⟩ := mkIndexing_eq_some halloc
  rw [← hk1] at hlook
  rw [← hk2] at hmem
  exact ⟨info, hlook, hmem⟩

/-- Witness for the C7 theorem at a one-indexer, one-subgraph input. -/
theorem snapshot_subgraph_indexings_wf_witness :
    ∃ info, lookupA [(7, witnessIndexerInfo)] 7 = some info ∧
      3 ∈ info.deployments :=
  snapshot_subgraph_indexings_wf [(7, witnessIndexerInfo)]
    [(100, witnessSubgraphInfo)] 100
    { id := 100
      chain := mainnetChain
      start_block := 0
      deployments := [3]
      indexings := [({ indexer := 7, deployment := 3 },
        { id := { indexer := 7, deployment := 3 }
          versions_behind := 0
          largest_allocation := 9
          total_allocated_tokens := 5
          indexer := mkIndexer witnessIndexerInfo
          status := none
          cost_model := none })] }
    (by decide) { indexer := 7, deployment := 3 }
    { id := { indexer := 7, deployment := 3 }
      versions_behind := 0
      largest_allocation := 9
      total_allocated_tokens := 5
      indexer := mkIndexer witnessIndexerInfo
      status := none
      cost_model := none }
    (by decide)

/-- Claim C10 (confirmed): a subgraph record with an empty versions list and a
present `id_on_l2` is classified as transferred to L2 (the all-versions
condition holds vacuously), appears in `transferred_subgraphs`, and is
excluded from the snapshot's subgraphs table. -/
theorem versionless_subgraph_transferred
    (indexers_info : List (Nat × IndexerInfo))
    (subgraphs_info : List (Nat × SubgraphInfo))
    (sid : Nat) (sg : SubgraphInfo) (l2 : Nat)
    (hmem : (sid, sg) ∈ subgraphs_info)
    (hv : sg.versions = []) (hl2 : sg.id_on_l2 = some l2) :
    (sid, l2) ∈ (new_from indexers_info subgraphs_info).transferred_subgraphs ∧
      ∀ p ∈ (new_from indexers_info subgraphs_info).subgraphs, p.1 ≠ sid := by
  have htrans :
      (sid, l2) ∈ construct_transferred_subgraphs_table subgraphs_info := by
    rw [construct_transferred_subgraphs_table, List.mem_filterMap]
    exact ⟨(sid, sg), hmem, by simp [hv, hl2]⟩
  refine ⟨by simpa [new_from] using htrans, ?_⟩
  intro p hp hps
  simp only [new_from] at hp
  rw [List.mem_filterMap] at hp
  obtain ⟨entry, -, hmk⟩ := hp
  have hfst : entry.1 = sid := by rw [← mkSubgraph_fst hmk, hps]
  have hsome : (lookupA (construct_transferred_subgraphs_table subgraphs_info)
      entry.1).isSome = true := by
    rw [hfst]; exact lookupA_isSome_of_mem htrans
  rw [mkSubgraph, if_pos hsome] at hmk
  simp at hmk

/-- Witness for the C10 theorem at a concrete versionless subgraph record. -/
theorem versionless_subgraph_transferred_witness :
    (5, 55) ∈ (new_from [(7, witnessIndexerInfo)]
        [(5, witnessEmptySubgraphInfo), (100, witnessSubgraphInfo)]).transferred_subgraphs ∧
      ∀ p ∈ (new_from [(7, witnessIndexerInfo)]
        [(5, witnessEmptySubgraphInfo), (100, witnessSubgraphInfo)]).subgraphs,
        p.1 ≠ 5 :=
  versionless_subgraph_transferred [(7, witnessIndexerInfo)]
    [(5, witnessEmptySubgraphInfo), (100, witnessSubgraphInfo)]
    5 witnessEmptySubgraphInfo 55 (by decide) (by decide) (by decide)

/-- Claim C6 (confirmed): the horizon-activation predicate computed from a
status response is true iff some graph network has at least one active
collection contract and either no active allocation contracts or at least as
many active collection contracts as active allocation contracts. -/
theorem horizon_active_iff (graph_networks : List GraphNetwork) :
    horizon_active graph_networks = true ↔
      ∃ network ∈ graph_networks,
        0 < network.tap_collection_contracts.countP (fun c => c.active) ∧
          (network.tap_allocation_contracts.countP (fun c => c.active) = 0 ∨
            network.tap_allocation_contracts.countP (fun c => c.active) ≤
              network.tap_collection_contracts.countP (fun c => c.active)) := by
  unfold horizon_active
  rw [List.any_eq_true]
  simp [List.countP_eq_length_filter]

theorem decodeV1_encodeV1 (r : V1Receipt) : decodeV1 (encodeV1 r) = some r :=
  rfl

theorem decodeV2_encodeV2 (r : V2Receipt) : decodeV2 (encodeV2 r) = some r :=
  rfl

theorem decodeV2_encodeV1 (r : V1Receipt) : decodeV2 (encodeV1 r) = none :=
  rfl

theorem decodeV1_encodeV2 (r : V2Receipt) : decodeV1 (encodeV2 r) = none :=
  rfl

/-- Claim C8 (confirmed): `value()` returns the underlying message's value in
both representations; `from_json(serialize(r))` succeeds and returns a receipt
with all fields equal to `r`'s; `from_json` tries v2 first, then v1, and
errors exactly when the input decodes as neither. -/
theorem receipt_value_and_json_roundtrip :
    (∀ r : V1Receipt, Receipt.value (.V1 r) = r.message.value) ∧
      (∀ r : V2Receipt, Receipt.value (.V2 r) = r.message.value) ∧
      (∀ r : Receipt, Receipt.from_json (Receipt.serializeJson r) = .ok r) ∧
      (∀ (j : Json) (v2 : V2Receipt), decodeV2 j = some v2 →
        Receipt.from_json j = .ok (.V2 v2)) ∧
      (∀ (j : Json) (v1 : V1Receipt), decodeV2 j = none →
        decodeV1 j = some v1 → Receipt.from_json j = .ok (.V1 v1)) ∧
      (∀ j : Json, Receipt.from_json j = .error parseFailMsg ↔
        decodeV2 j = none ∧ decodeV1 j = none) := by
  refine ⟨fun r => rfl, fun r => rfl, ?_, ?_, ?_, ?_⟩
  · intro r
    cases r with
    | V1 r =>
      show Receipt.from_json (encodeV1 r) = .ok (.V1 r)
      simp [Receipt.from_json, decodeV2_encodeV1, decodeV1_encodeV1]
    | V2 r =>
      show Receipt.from_json (encodeV2 r) = .ok (.V2 r)
      simp [Receipt.from_json, decodeV2_encodeV2]
  · intro j v2 h
    simp [Receipt.from_json, h]
  · intro j v1 h2 h1
    simp [Receipt.from_json, h2, h1]
  · intro j
    unfold Receipt.from_json
    cases h2 : decodeV2 j with
    | some v2 => simp [h2]
    | none =>
      cases h1 : decodeV1 j with
      | some v1 => simp [h1]
      | none => simp

/-- Witness for the C8 theorem: the concrete v1 receipt round-trips, both via
the serializer and via the v2-then-v1 fallback path with its hypotheses
discharged by evaluation. -/
theorem receipt_value_and_json_roundtrip_witness :
    Receipt.from_json (Receipt.serializeJson (.V1 sampleV1Receipt)) =
        .ok (.V1 sampleV1Receipt) ∧
      Receipt.from_json (encodeV1 sampleV1Receipt) = .ok (.V1 sampleV1Receipt) :=
  ⟨receipt_value_and_json_roundtrip.2.2.1 (.V1 sampleV1Receipt),
    receipt_value_and_json_roundtrip.2.2.2.2.1 (encodeV1 sampleV1Receipt)
      sampleV1Receipt rfl rfl⟩

/-- Claim C9 (confirmed): when the TTL cache holds an unexpired entry for the
normalized status URL, `resolve` returns exactly a clone of that cached entry
and leaves the cache unchanged — for every `pois` argument and every fetch
oracle, so nothing is fetched — and requested pairs absent from the cached
entry are absent from the result. -/
theorem resolve_cache_hit (statusUrl : Nat → Nat)
    (fetch : List (Nat × Nat) → Except Unit PoiMap) (ttl now : Nat)
    (cache : List (Nat × TtlEntry PoiMap)) (url : Nat)
    (pois : List (Nat × Nat)) (m : PoiMap)
    (hhit : ttlGet ttl now cache (statusUrl url) = some m) :
    resolvePoi statusUrl fetch ttl now cache url pois = (.ok m, cache) ∧
      ∀ p ∈ pois, lookupPoi m p = none →
        ∀ r c, resolvePoi statusUrl fetch ttl now cache url pois = (.ok r, c) →
          lookupPoi r p = none := by
  have hres : resolvePoi statusUrl fetch ttl now cache url pois =
      (.ok m, cache) := by
    simp only [resolvePoi, hhit]
  refine ⟨hres, ?_⟩
  intro p _ habs r c hrc
  rw [hres] at hrc
  simp only [Prod.mk.injEq, Except.ok.injEq] at hrc
  rw [← hrc.1]
  exact habs

/-- Witness for the C9 theorem: a concrete unexpired cache entry is served
unchanged even though the fetch oracle would time out and the requested pairs
differ from the cached ones. -/
theorem resolve_cache_hit_witness :
    resolvePoi id (fun _ => .error ()) 1200 100 witnessPoiCache 1
        [(2, 3), (4, 5)] =
      (.ok witnessPoiMap, witnessPoiCache) :=
  (resolve_cache_hit id (fun _ => .error ()) 1200 100 witnessPoiCache 1
    [(2, 3), (4, 5)] witnessPoiMap (by decide)).1

end Gateway
